import Mathlib

/-!
Shallow embedding of the HomeWiz backend core (Python/FastAPI/SQLAlchemy):
the seed-time room generation algorithm (`backend/seed_db.py`) and the five
endpoint modules (`backend/app/endpoints/*.py`) over the SQLAlchemy models
(`backend/app/models/models.py`).

Modelling conventions:
* Python `str(n)` for a natural number is modelled by `natDigits` (decimal,
  most-significant digit first) wrapped into a `String`.
* Python `str.zfill(w)` is modelled by `zfillL` on `List Char`.
* Python monetary floats are modelled by `ℚ`; the literal `0.05` denotes the
  exact value 1/20.
* Integer count columns (`floors`, `total_rooms`, `interaction_count`) are
  modelled by `Nat`; Python `//` on nonnegative ints is `Nat` division.
* The database session is a record of per-table lists (insertion order =
  surrogate-key order); `db.add` + `db.commit` is list append.
* Nullable columns a claim never exercises with NULL are modelled as plain
  fields; cosmetic room attributes drawn from `random.choice` in
  `populate_rooms` (bathroom type, bed size/type, view, square footage,
  capacity) are omitted from the `Room` record: no claim mentions them and
  they do not influence ids, rent or status.
-/

namespace HomeWiz

/-- Decimal digits of a natural number, most significant first, mirroring
Python `str(n)` for `n ≥ 0`. -/
def natDigits (n : Nat) : List Char :=
  if h : n < 10 then [Char.ofNat (48 + n)]
  else
    have : n / 10 < n := Nat.div_lt_self (by omega) (by omega)
    natDigits (n / 10) ++ [Char.ofNat (48 + n % 10)]

/-- Python `str.zfill(w)` restricted to nonnegative inputs: left-pad with
`'0'` up to width `w`. -/
def zfillL (w : Nat) (l : List Char) : List Char :=
  List.replicate (w - l.length) '0' ++ l

/-- `str(n)` as a Lean `String`. -/
def natStr (n : Nat) : String := ⟨natDigits n⟩

/-- `str(n).zfill(w)` as a Lean `String`. -/
def natStrZfill (w n : Nat) : String := ⟨zfillL w (natDigits n)⟩

theorem natDigits_ne_nil (n : Nat) : natDigits n ≠ [] := by
  unfold natDigits
  split
  · simp
  · simp

theorem natDigits_small (n : Nat) (h : n < 10) :
    natDigits n = [Char.ofNat (48 + n)] := by
  unfold natDigits
  simp [h]

theorem natDigits_large (n : Nat) (h : ¬ n < 10) :
    natDigits n = natDigits (n / 10) ++ [Char.ofNat (48 + n % 10)] := by
  conv_lhs => unfold natDigits
  simp [h]

theorem char_ofNat_digit_inj {a b : Nat} (ha : a < 10) (hb : b < 10)
    (h : Char.ofNat (48 + a) = Char.ofNat (48 + b)) : a = b := by
  interval_cases a <;> interval_cases b <;> simp_all

theorem natDigits_inj : ∀ {m n : Nat}, natDigits m = natDigits n → m = n := by
  intro m
  induction m using Nat.strong_induction_on with
  | _ m ih =>
    intro n h
    by_cases hm : m < 10 <;> by_cases hn : n < 10
    · rw [natDigits_small m hm, natDigits_small n hn] at h
      exact char_ofNat_digit_inj hm hn (List.singleton_injective h)
    · rw [natDigits_small m hm, natDigits_large n hn] at h
      cases hnil : natDigits (n / 10) with
      | nil => exact absurd hnil (natDigits_ne_nil _)
      | cons a l =>
        rw [hnil] at h
        have hlen := congrArg List.length h
        simp at hlen
    · rw [natDigits_large m hm, natDigits_small n hn] at h
      cases hnil : natDigits (m / 10) with
      | nil => exact absurd hnil (natDigits_ne_nil _)
      | cons a l =>
        rw [hnil] at h
        have hlen := congrArg List.length h
        simp at hlen
    · rw [natDigits_large m hm, natDigits_large n hn] at h
      have hlen : (natDigits (m / 10)).length = (natDigits (n / 10)).length := by
        have := congrArg List.length h
        simp at this
        omega
      obtain ⟨h1, h2⟩ := List.append_inj h hlen
      have hdiv : m / 10 = n / 10 :=
        ih (m / 10) (Nat.div_lt_self (by omega) (by omega)) h1
      have hmod : m % 10 = n % 10 := by
        have := List.singleton_injective h2
        exact char_ofNat_digit_inj (Nat.mod_lt _ (by omega))
          (Nat.mod_lt _ (by omega)) this
      omega

theorem natDigits_all_digit (n : Nat) : ∀ c ∈ natDigits n, c.isDigit := by
  induction n using Nat.strong_induction_on with
  | _ n ih =>
    by_cases h : n < 10
    · rw [natDigits_small n h]
      intro c hc
      simp at hc
      subst hc
      interval_cases n <;> decide
    · rw [natDigits_large n h]
      intro c hc
      rw [List.mem_append] at hc
      rcases hc with hc | hc
      · exact ih (n / 10) (Nat.div_lt_self (by omega) (by omega)) c hc
      · simp at hc
        subst hc
        have : n % 10 < 10 := Nat.mod_lt _ (by omega)
        interval_cases h10 : n % 10 <;> decide

theorem natDigits_length_le_two {n : Nat} (h : n ≤ 99) :
    (natDigits n).length ≤ 2 := by
  by_cases h10 : n < 10
  · rw [natDigits_small n h10]; simp
  · rw [natDigits_large n h10]
    have : n / 10 < 10 := by omega
    rw [natDigits_small _ this]
    simp

theorem natDigits_two_digit {n : Nat} (h1 : 10 ≤ n) (h2 : n ≤ 99) :
    natDigits n = [Char.ofNat (48 + n / 10), Char.ofNat (48 + n % 10)] := by
  rw [natDigits_large n (by omega), natDigits_small (n / 10) (by omega)]
  rfl

theorem natDigits_head_ne_zero_of_two_digit {n : Nat} (h1 : 10 ≤ n)
    (h2 : n ≤ 99) : ∀ a l, natDigits n = a :: l → a ≠ '0' := by
  intro a l heq
  rw [natDigits_two_digit h1 h2] at heq
  simp at heq
  obtain ⟨ha, -⟩ := heq
  subst ha
  have h3 : 1 ≤ n / 10 := by omega
  have h4 : n / 10 ≤ 9 := by omega
  interval_cases hh : n / 10 <;> decide

theorem zfillL_two_inj {m n : Nat} (hm1 : 1 ≤ m) (hm2 : m ≤ 99)
    (hn1 : 1 ≤ n) (hn2 : n ≤ 99)
    (h : zfillL 2 (natDigits m) = zfillL 2 (natDigits n)) : m = n := by
  unfold zfillL at h
  by_cases ham : m < 10 <;> by_cases han : n < 10
  · rw [natDigits_small m ham, natDigits_small n han] at h
    simp at h
    exact char_ofNat_digit_inj ham han (by rw [h])
  · rw [natDigits_small m ham, natDigits_two_digit (by omega) hn2] at h
    simp at h
    obtain ⟨h0, -⟩ := h
    exact absurd h0.symm
      (natDigits_head_ne_zero_of_two_digit (n := n) (by omega) hn2 _ _
        (natDigits_two_digit (by omega) hn2))
  · rw [natDigits_two_digit (by omega) hm2, natDigits_small n han] at h
    simp at h
    obtain ⟨h0, -⟩ := h
    exact absurd h0
      (natDigits_head_ne_zero_of_two_digit (n := m) (by omega) hm2 _ _
        (natDigits_two_digit (by omega) hm2))
  · rw [natDigits_two_digit (by omega) hm2, natDigits_two_digit (by omega) hn2] at h
    simp at h
    exact natDigits_inj (by
      rw [natDigits_two_digit (n := m) (by omega) hm2,
        natDigits_two_digit (n := n) (by omega) hn2]
      simp [h.1, h.2])

/-- The `room_number` string of `seed_db.populate_rooms`:
`f"{floor}{str(room_num).zfill(2)}"`. -/
def roomNumber (floor num : Nat) : String :=
  natStr floor ++ natStrZfill 2 num

/-- The `room_id` string of `seed_db.populate_rooms`:
`f"{building.building_id}_R{room_number}"`. -/
def roomId (building_id : String) (floor num : Nat) : String :=
  building_id ++ "_R" ++ roomNumber floor num

/-- The `floor_premium` of `seed_db.populate_rooms`:
`1 + (floor - 1) * 0.05`, over exact rationals. -/
def floorPremium (floor : Nat) : ℚ := 1 + ((floor : ℚ) - 1) * 0.05

theorem roomNumber_data (floor num : Nat) :
    (roomNumber floor num).data = natDigits floor ++ zfillL 2 (natDigits num) := rfl

theorem roomId_data (bid : String) (floor num : Nat) :
    (roomId bid floor num).data =
      bid.data ++ '_' :: 'R' :: (natDigits floor ++ zfillL 2 (natDigits num)) := by
  show (bid.data ++ "_R".data) ++ (roomNumber floor num).data = _
  rw [roomNumber_data]
  simp [String.data]

/-- `roomNumber` is injective on floor/index pairs as long as the per-floor
index stays two-digit (`num ≤ 99`). -/
theorem roomNumber_inj {f1 n1 f2 n2 : Nat}
    (hn1a : 1 ≤ n1) (hn1b : n1 ≤ 99) (hn2a : 1 ≤ n2) (hn2b : n2 ≤ 99)
    (h : roomNumber f1 n1 = roomNumber f2 n2) : f1 = f2 ∧ n1 = n2 := by
  have hd : (roomNumber f1 n1).data = (roomNumber f2 n2).data := by rw [h]
  rw [roomNumber_data, roomNumber_data] at hd
  have hlen : (zfillL 2 (natDigits n1)).length = (zfillL 2 (natDigits n2)).length := by
    unfold zfillL
    have l1 := natDigits_length_le_two hn1b
    have l2 := natDigits_length_le_two hn2b
    simp
    omega
  obtain ⟨hf, hn⟩ := List.append_inj hd
    (by
      have := congrArg List.length hd
      simp at this
      omega)
  exact ⟨natDigits_inj hf, zfillL_two_inj hn1a hn1b hn2a hn2b hn⟩

/-- The `operators` table row (`models.Operator`). Date columns
(`date_joined`, `last_active`) are omitted: no claim mentions them. -/
structure OperatorRec where
  operator_id : Nat
  name : String
  email : String
  phone : Option String
  role : Option String
  active : Bool
  operator_type : String
  deriving Repr, DecidableEq

/-- The `buildings` table row (`models.Building`). Nullable columns the
claims always populate are modelled as plain fields. -/
structure BuildingRec where
  building_id : String
  building_name : String
  full_address : Option String
  operator_id : Option Nat
  street : Option String
  area : String
  city : Option String
  state : Option String
  zip : Option String
  floors : Nat
  total_rooms : Nat
  total_bathrooms : Nat
  wifi_included : Bool
  laundry_onsite : Bool
  deriving Repr, DecidableEq

/-- The `rooms` table row (`models.Room`). The cosmetic attributes filled by
`random.choice` / `random.randint` in `populate_rooms` are omitted (see
module docstring). -/
structure RoomRec where
  room_id : String
  room_number : String
  building_id : String
  floor_number : Nat
  private_room_rent : ℚ
  status : String
  deriving Repr, DecidableEq

/-- The `tenants` table row (`models.Tenant`). Lease dates are modelled as
integers (day ordinals). -/
structure TenantRec where
  tenant_id : String
  tenant_name : String
  room_id : String
  room_number : String
  lease_start_date : Int
  lease_end_date : Int
  operator_id : Nat
  booking_type : String
  tenant_nationality : String
  tenant_email : String
  phone : Option String
  building_id : String
  status : String
  deposit_amount : ℚ
  payment_status : String
  deriving Repr, DecidableEq

/-- The `leads` table row (`models.Lead`). -/
structure LeadRec where
  lead_id : String
  email : String
  status : String
  interaction_count : Nat
  rooms_interested : Option String
  selected_room_id : Option String
  showing_dates : Option String
  planned_move_in : Option String
  planned_move_out : Option String
  visa_status : Option String
  deriving Repr, DecidableEq

/-- The database session state: one list per table, in insertion order
(which is also surrogate-key order). -/
structure DB where
  operators : List OperatorRec
  buildings : List BuildingRec
  rooms : List RoomRec
  tenants : List TenantRec
  leads : List LeadRec
  deriving Repr, DecidableEq

def emptyDB : DB := ⟨[], [], [], [], []⟩

/-- Errors raised inside `seed_db.populate_rooms`. `keyError` models the
Python `KeyError` from `room_features[area]` on an unknown area, and
`zeroDivisionError` the `ZeroDivisionError` from
`building.total_rooms // floors` when `floors == 0`. `configurationError`
is spec vocabulary only (spec §7 `ConfigurationError`): no code path in the
repository raises it, and no such class exists in the source; it is
included so that statements about the spec's error taxonomy can be
expressed and compared with what the code actually raises. -/
inductive SeedError where
  | keyError
  | zeroDivisionError
  | configurationError
  deriving Repr, DecidableEq

/-- The `room_features` pricing dict of `populate_rooms`: area name ↦
(base_rent, premium). -/
def roomFeatures : List (String × ℚ × ℚ) :=
  [("Downtown", (2200, 1.3)), ("SoMA", (1900, 1.2)), ("Mission", (1700, 1.1))]

/-- Python dict lookup `table[area]` over an association list. -/
def featureLookup (table : List (String × ℚ × ℚ)) (area : String) :
    Option (ℚ × ℚ) :=
  match table.find? (fun e => e.1 = area) with
  | some e => some e.2
  | none => none

/-- One room record of `populate_rooms`, for a floor/index pair. -/
def mkRoom (bid : String) (base premium : ℚ) (floor num : Nat) : RoomRec :=
  { room_id := roomId bid floor num
    room_number := roomNumber floor num
    building_id := bid
    floor_number := floor
    private_room_rent := base * premium * floorPremium floor
    status := "AVAILABLE" }

/-- The loop body of `seed_db.populate_rooms` for a single building:
look up `room_features[building.area]`, compute
`rooms_per_floor = building.total_rooms // building.floors` (a
`ZeroDivisionError` when `floors == 0`), then add one room per
`floor in range(1, floors + 1)` and `room_num in range(1, rooms_per_floor + 1)`,
in loop order. -/
def populateRoomsB (table : List (String × ℚ × ℚ)) (b : BuildingRec) :
    Except SeedError (List RoomRec) :=
  match featureLookup table b.area with
  | none => .error .keyError
  | some (base, premium) =>
    if b.floors = 0 then .error .zeroDivisionError
    else
      let roomsPerFloor := b.total_rooms / b.floors
      .ok ((List.range' 1 b.floors).flatMap fun floor =>
        (List.range' 1 roomsPerFloor).map fun num =>
          mkRoom b.building_id base premium floor num)

/-- The list of room ids generated for one building. -/
def generatedIds (table : List (String × ℚ × ℚ)) (b : BuildingRec) :
    List String :=
  match populateRoomsB table b with
  | .ok rooms => rooms.map RoomRec.room_id
  | .error _ => []

/-- All characters of a generated `room_number` are decimal digits. -/
theorem roomNumberL_all_digit (floor num : Nat) :
    ∀ c ∈ natDigits floor ++ zfillL 2 (natDigits num), c.isDigit := by
  intro c hc
  rw [List.mem_append] at hc
  rcases hc with hc | hc
  · exact natDigits_all_digit floor c hc
  · unfold zfillL at hc
    rw [List.mem_append] at hc
    rcases hc with hc | hc
    · rw [List.mem_replicate] at hc
      rw [hc.2]
      decide
    · exact natDigits_all_digit num c hc

/-- If a digit-suffixed `"_R"` pattern equals `bs` followed by the same
pattern, then `bs` is empty: the separator `"_R"` cannot reappear inside the
digits. -/
theorem sep_prefix_nil (bs r r' : List Char) (hr : ∀ c ∈ r, c.isDigit)
    (h : '_' :: 'R' :: r = bs ++ '_' :: 'R' :: r') : bs = [] := by
  match bs with
  | [] => rfl
  | [x] =>
    simp at h
  | x :: y :: bs' =>
    simp at h
    obtain ⟨-, -, hrest⟩ := h
    have : '_' ∈ r := by rw [hrest]; simp
    have := hr '_' this
    simp at this

/-- Lists followed by a `"_R"` separator and digit strings are determined by
the full concatenation. -/
theorem append_sep_digits_inj (a : List Char) :
    ∀ (b r1 r2 : List Char), (∀ c ∈ r1, c.isDigit) → (∀ c ∈ r2, c.isDigit) →
      a ++ '_' :: 'R' :: r1 = b ++ '_' :: 'R' :: r2 → a = b := by
  induction a with
  | nil =>
    intro b r1 r2 h1 _ h
    exact (sep_prefix_nil b r1 r2 h1 h).symm
  | cons x as ih =>
    intro b r1 r2 h1 h2 h
    cases b with
    | nil =>
      have := sep_prefix_nil (x :: as) r2 r1 h2 h.symm
      simp at this
    | cons y bs =>
      simp at h
      obtain ⟨hxy, hrest⟩ := h
      rw [hxy, ih bs r1 r2 h1 h2 hrest]

/-- Two generated room ids with the same building id and two-digit indices
agree exactly on their floor/index pair. -/
theorem roomId_inj_same_bid {bid : String} {f1 n1 f2 n2 : Nat}
    (hn1a : 1 ≤ n1) (hn1b : n1 ≤ 99) (hn2a : 1 ≤ n2) (hn2b : n2 ≤ 99)
    (h : roomId bid f1 n1 = roomId bid f2 n2) : f1 = f2 ∧ n1 = n2 := by
  have hd := congrArg String.data h
  rw [roomId_data, roomId_data] at hd
  have ht := List.append_cancel_left hd
  simp at ht
  exact roomNumber_inj hn1a hn1b hn2a hn2b (by
    apply String.ext
    rw [roomNumber_data, roomNumber_data]
    exact ht)

/-- Two generated room ids can only be equal if their building ids are
equal: the building id is recoverable from the id. -/
theorem roomId_inj_bid {b1 b2 : String} {f1 n1 f2 n2 : Nat}
    (h : roomId b1 f1 n1 = roomId b2 f2 n2) : b1 = b2 := by
  have hd := congrArg String.data h
  rw [roomId_data, roomId_data] at hd
  exact String.ext (append_sep_digits_inj b1.data b2.data _ _
    (roomNumberL_all_digit f1 n1) (roomNumberL_all_digit f2 n2) hd)

/-- Under a successful area lookup and nonzero floor count, the generated
room-id list is the double loop over floors `1..floors` and indices
`1..rooms_per_floor`. -/
theorem generatedIds_eq {table : List (String × ℚ × ℚ)} {b : BuildingRec}
    {base premium : ℚ}
    (hlook : featureLookup table b.area = some (base, premium))
    (hfl : b.floors ≠ 0) :
    generatedIds table b =
      (List.range' 1 b.floors).flatMap fun floor =>
        (List.range' 1 (b.total_rooms / b.floors)).map fun num =>
          roomId b.building_id floor num := by
  unfold generatedIds populateRoomsB
  rw [hlook]
  simp [hfl, List.map_flatMap, Function.comp_def, mkRoom]

theorem generatedIds_length {table : List (String × ℚ × ℚ)} {b : BuildingRec}
    {base premium : ℚ}
    (hlook : featureLookup table b.area = some (base, premium))
    (hfl : b.floors ≠ 0) :
    (generatedIds table b).length = b.floors * (b.total_rooms / b.floors) := by
  rw [generatedIds_eq hlook hfl]
  rw [List.length_flatMap]
  simp [Function.comp_def, mul_comm]

theorem generatedIds_mem {table : List (String × ℚ × ℚ)} {b : BuildingRec}
    {base premium : ℚ} {i : String}
    (hlook : featureLookup table b.area = some (base, premium))
    (hfl : b.floors ≠ 0) (hi : i ∈ generatedIds table b) :
    ∃ floor num, 1 ≤ floor ∧ floor ≤ b.floors ∧ 1 ≤ num ∧
      num ≤ b.total_rooms / b.floors ∧ i = roomId b.building_id floor num := by
  rw [generatedIds_eq hlook hfl] at hi
  rw [List.mem_flatMap] at hi
  obtain ⟨floor, hfmem, hi⟩ := hi
  rw [List.mem_map] at hi
  obtain ⟨num, hnmem, hi⟩ := hi
  rw [List.mem_range'_1] at hfmem hnmem
  exact ⟨floor, num, hfmem.1, by omega, hnmem.1, by omega, hi.symm⟩

/-- Within one building, the generated room ids are pairwise distinct, as
long as the per-floor room count stays two-digit. -/
theorem generatedIds_nodup {table : List (String × ℚ × ℚ)} {b : BuildingRec}
    {base premium : ℚ}
    (hlook : featureLookup table b.area = some (base, premium))
    (hfl : b.floors ≠ 0) (hq : b.total_rooms / b.floors ≤ 99) :
    (generatedIds table b).Nodup := by
  rw [generatedIds_eq hlook hfl]
  rw [List.nodup_flatMap]
  constructor
  · intro floor _
    apply List.Nodup.map_on _ (List.nodup_range' 1 _)
    intro n1 hn1 n2 hn2 heq
    rw [List.mem_range'_1] at hn1 hn2
    exact (roomId_inj_same_bid hn1.1 (by omega) hn2.1 (by omega) heq).2
  · apply List.Pairwise.imp _ (List.pairwise_lt_range' 1 b.floors)
    intro f1 f2 hlt i hi1 hi2
    rw [List.mem_map] at hi1 hi2
    obtain ⟨n1, hn1, hi1⟩ := hi1
    obtain ⟨n2, hn2, hi2⟩ := hi2
    rw [List.mem_range'_1] at hn1 hn2
    have := (roomId_inj_same_bid hn1.1 (by omega) hn2.1 (by omega)
      (hi1.trans hi2.symm)).1
    omega

/-- Room ids generated for buildings with distinct building ids never
collide. -/
theorem generatedIds_disjoint {table : List (String × ℚ × ℚ)}
    {b b' : BuildingRec} (hbid : b.building_id ≠ b'.building_id) :
    (generatedIds table b).Disjoint (generatedIds table b') := by
  intro i hi hi'
  unfold generatedIds at hi hi'
  have mem_shape : ∀ (c : BuildingRec),
      i ∈ (match populateRoomsB table c with
            | .ok rooms => rooms.map RoomRec.room_id
            | .error _ => ([] : List String)) →
      ∃ floor num, i = roomId c.building_id floor num := by
    intro c hc
    cases hp : populateRoomsB table c with
    | error e => rw [hp] at hc; simp at hc
    | ok rooms =>
      rw [hp] at hc
      simp at hc
      obtain ⟨r, hr, hri⟩ := hc
      unfold populateRoomsB at hp
      cases hfeat : featureLookup table c.area with
      | none => rw [hfeat] at hp; simp at hp
      | some p =>
        rw [hfeat] at hp
        by_cases hz : c.floors = 0
        · simp [hz] at hp
        · simp [hz] at hp
          rw [← hp] at hr
          rw [List.mem_flatMap] at hr
          obtain ⟨floor, -, hr⟩ := hr
          rw [List.mem_map] at hr
          obtain ⟨num, -, hr⟩ := hr
          exact ⟨floor, num, by rw [← hri, ← hr]; rfl⟩
  obtain ⟨f1, n1, h1⟩ := mem_shape b hi
  obtain ⟨f2, n2, h2⟩ := mem_shape b' hi'
  exact hbid (roomId_inj_bid ((h1.symm.trans h2)))

/-- Error outcomes of the endpoint layer, per the spec's taxonomy (§7):
`notFound` models `HTTPException(status_code=404, ...)` and `conflict`
models the duplicate-key `HTTPException(status_code=400, ...)`. -/
inductive ApiError where
  | notFound
  | conflict
  deriving Repr, DecidableEq

/-- Request body of `POST /leads` (`LeadCreate` in `leads.py`); the pydantic
defaults are the Lean field defaults. -/
structure LeadCreate where
  email : String
  status : String := "EXPLORING"
  rooms_interested : Option String := none
  visa_status : Option String := none
  deriving Repr, DecidableEq

/-- Response of `POST /leads`. -/
structure LeadResp where
  success : Bool
  message : String
  lead_id : String
  deriving Repr, DecidableEq

/-- The sequential lead id `f"LEAD_{str(count + 1).zfill(3)}"`. -/
def mkLeadId (n : Nat) : String := "LEAD_" ++ natStrZfill 3 n

/-- The sequential tenant id `f"TNT_{str(count + 1).zfill(3)}"`. -/
def mkTenantId (n : Nat) : String := "TNT_" ++ natStrZfill 3 n

/-- `create_lead` of `leads.py`: first-match lookup by email; on a hit,
return the existing record's id with no write; otherwise count the leads,
allocate the next sequential id, and insert a row whose remaining columns
take the model defaults (`interaction_count = 0`, rest NULL). -/
def create_lead (d : LeadCreate) (db : DB) : DB × LeadResp :=
  match db.leads.find? (fun l => l.email == d.email) with
  | some l => (db, ⟨true, "Lead already exists", l.lead_id⟩)
  | none =>
    let lead_id := mkLeadId (db.leads.length + 1)
    let lead : LeadRec :=
      ⟨lead_id, d.email, d.status, 0, d.rooms_interested,
        none, none, none, none, d.visa_status⟩
    ({db with leads := db.leads ++ [lead]},
      ⟨true, "Lead created successfully", lead_id⟩)

/-- Request body of `POST /tenants` (`TenantCreate` in `tenants.py`). -/
structure TenantCreate where
  tenant_name : String
  room_id : String
  room_number : String
  lease_start_date : Int
  lease_end_date : Int
  operator_id : Nat
  booking_type : String
  tenant_nationality : String
  tenant_email : String
  phone : Option String := none
  building_id : String
  deposit_amount : ℚ
  deriving Repr, DecidableEq

/-- Response of `POST /tenants`. -/
structure TenantResp where
  success : Bool
  message : String
  tenant_id : String
  deriving Repr, DecidableEq

/-- `create_tenant` of `tenants.py`: no validation of any kind; count the
tenants, allocate the next sequential id, insert a row with the model
defaults `status = "ACTIVE"` and `payment_status = "CURRENT"`. -/
def create_tenant (d : TenantCreate) (db : DB) : DB × TenantResp :=
  let tenant_id := mkTenantId (db.tenants.length + 1)
  let t : TenantRec :=
    ⟨tenant_id, d.tenant_name, d.room_id, d.room_number,
      d.lease_start_date, d.lease_end_date, d.operator_id, d.booking_type,
      d.tenant_nationality, d.tenant_email, d.phone, d.building_id,
      "ACTIVE", d.deposit_amount, "CURRENT"⟩
  ({db with tenants := db.tenants ++ [t]},
    ⟨true, "Tenant created successfully", tenant_id⟩)

/-- Response of `POST /buildings`. -/
structure BuildingResp where
  success : Bool
  message : String
  building_id : String
  deriving Repr, DecidableEq

/-- `create_building` of `buildings.py`: first-match duplicate check on
`building_id` raising 400 (Conflict) before any write, else insert. The
request body (`BuildingCreate`) carries the same fields as the row, so it
is taken directly as a `BuildingRec`. -/
def create_building (d : BuildingRec) (db : DB) :
    DB × Except ApiError BuildingResp :=
  match db.buildings.find? (fun b => b.building_id == d.building_id) with
  | some _ => (db, .error .conflict)
  | none =>
    ({db with buildings := db.buildings ++ [d]},
      .ok ⟨true, "Building created successfully", d.building_id⟩)

/-- Request body of `POST /operators` (`OperatorCreate` in `operators.py`). -/
structure OperatorCreate where
  name : String
  email : String
  phone : Option String := none
  role : Option String := none
  operator_type : String := "LEASING_AGENT"
  active : Bool := true
  deriving Repr, DecidableEq

/-- Response of `POST /operators` (its `data` sub-dict of echoed fields is
omitted; no claim mentions it). -/
structure OperatorResp where
  success : Bool
  message : String
  operator_id : Nat
  deriving Repr, DecidableEq

/-- `create_operator` of `operators.py`: first-match duplicate check on
`email` raising 400 (Conflict) before any write, else insert with the
autoincrement surrogate key modelled as `count + 1` (insertion order). -/
def create_operator (d : OperatorCreate) (db : DB) :
    DB × Except ApiError OperatorResp :=
  match db.operators.find? (fun o => o.email == d.email) with
  | some _ => (db, .error .conflict)
  | none =>
    let oid := db.operators.length + 1
    let o : OperatorRec :=
      ⟨oid, d.name, d.email, d.phone, d.role, d.active, d.operator_type⟩
    ({db with operators := db.operators ++ [o]},
      .ok ⟨true, "Operator created successfully", oid⟩)

/-- `get_building` of `buildings.py`: first match on `building_id`, 404
when absent. -/
def get_building (building_id : String) (db : DB) :
    Except ApiError BuildingRec :=
  match db.buildings.find? (fun b => b.building_id == building_id) with
  | some b => .ok b
  | none => .error .notFound

/-- `get_room` of `rooms.py`: first match on `room_id`, 404 when absent. -/
def get_room (room_id : String) (db : DB) : Except ApiError RoomRec :=
  match db.rooms.find? (fun r => r.room_id == room_id) with
  | some r => .ok r
  | none => .error .notFound

/-- `get_rooms` of `rooms.py`: all rooms, optionally filtered by
`building_id`. Read-only: it takes the state and returns data without a
successor state. -/
def get_rooms (building_id : Option String) (db : DB) : List RoomRec :=
  match building_id with
  | some bid => db.rooms.filter (fun r => r.building_id == bid)
  | none => db.rooms

/-- `get_operator` of `operators.py`: first match on `operator_id`, 404
when absent. -/
def get_operator (operator_id : Nat) (db : DB) : Except ApiError OperatorRec :=
  match db.operators.find? (fun o => o.operator_id == operator_id) with
  | some o => .ok o
  | none => .error .notFound

/-- Modelled from the spec: `tenants.py` defines no get-by-key endpoint
(only `GET /tenants` and `POST /tenants`), yet spec §8 includes Tenant
among the entities whose lookup by an unknown business key yields NotFound.
Following the spec's words and the shape of the three sibling endpoints:
first match on `tenant_id`, NotFound when absent. -/
def get_tenant (tenant_id : String) (db : DB) : Except ApiError TenantRec :=
  match db.tenants.find? (fun t => t.tenant_id == tenant_id) with
  | some t => .ok t
  | none => .error .notFound

/-- The states reachable through the public interface, starting from the
empty store: the four create endpoints plus seed-time room generation
(`populate_rooms` applied to one building). The read endpoints
(`get_*`) return data without producing a successor state, so they
contribute no step. -/
inductive Reachable : DB → Prop where
  | init : Reachable emptyDB
  | step_operator (d : OperatorCreate) (db : DB) :
      Reachable db → Reachable (create_operator d db).1
  | step_building (d : BuildingRec) (db : DB) :
      Reachable db → Reachable (create_building d db).1
  | step_lead (d : LeadCreate) (db : DB) :
      Reachable db → Reachable (create_lead d db).1
  | step_tenant (d : TenantCreate) (db : DB) :
      Reachable db → Reachable (create_tenant d db).1
  | step_seed_rooms (table : List (String × ℚ × ℚ)) (b : BuildingRec)
      (db : DB) (rooms : List RoomRec) :
      Reachable db → populateRoomsB table b = .ok rooms →
      Reachable { db with rooms := db.rooms ++ rooms }

theorem populateRoomsB_status {table : List (String × ℚ × ℚ)}
    {b : BuildingRec} {rooms : List RoomRec}
    (h : populateRoomsB table b = .ok rooms) :
    ∀ r ∈ rooms, r.status = "AVAILABLE" := by
  unfold populateRoomsB at h
  cases hfeat : featureLookup table b.area with
  | none => rw [hfeat] at h; simp at h
  | some p =>
    rw [hfeat] at h
    by_cases hz : b.floors = 0
    · simp [hz] at h
    · simp [hz] at h
      intro r hr
      rw [← h] at hr
      rw [List.mem_flatMap] at hr
      obtain ⟨floor, -, hr⟩ := hr
      rw [List.mem_map] at hr
      obtain ⟨num, -, hr⟩ := hr
      rw [← hr]
      rfl

theorem create_operator_rooms (d : OperatorCreate) (db : DB) :
    (create_operator d db).1.rooms = db.rooms := by
  unfold create_operator
  cases db.operators.find? (fun o => o.email == d.email) <;> rfl

theorem create_building_rooms (d : BuildingRec) (db : DB) :
    (create_building d db).1.rooms = db.rooms := by
  unfold create_building
  cases db.buildings.find? (fun b => b.building_id == d.building_id) <;> rfl

theorem create_lead_rooms (d : LeadCreate) (db : DB) :
    (create_lead d db).1.rooms = db.rooms := by
  unfold create_lead
  cases db.leads.find? (fun l => l.email == d.email) <;> rfl

theorem create_tenant_rooms (d : TenantCreate) (db : DB) :
    (create_tenant d db).1.rooms = db.rooms := rfl

/-- `BLD_MARKET` from `populate_buildings` in `seed_db.py`. -/
def bMarket : BuildingRec :=
  ⟨"BLD_MARKET", "Market Street Residences", some "1000 Market St", some 1,
    some "Market St", "Downtown", some "San Francisco", some "CA",
    some "94102", 8, 20, 16, true, true⟩

/-- `BLD_SOMA` from `populate_buildings` in `seed_db.py`. -/
def bSoma : BuildingRec :=
  ⟨"BLD_SOMA", "SoMA Commons", some "500 Harrison St", some 2,
    some "Harrison St", "SoMA", some "San Francisco", some "CA",
    some "94105", 6, 15, 12, true, true⟩

/-- C7. For every state and every input, `create_tenant` succeeds: it
allocates `TNT_{count+1}`, persists the tenant with `status = "ACTIVE"` and
`payment_status = "CURRENT"`, and performs no check whatsoever — the
statement has no hypothesis about the referenced room being free of other
active tenants nor about `lease_start_date < lease_end_date`, so it covers
those cases in particular. -/
theorem c7_create_tenant_always_succeeds (db : DB) (d : TenantCreate) :
    (create_tenant d db).2.success = true ∧
    (create_tenant d db).2.tenant_id = mkTenantId (db.tenants.length + 1) ∧
    (create_tenant d db).1.tenants = db.tenants ++
      [⟨mkTenantId (db.tenants.length + 1), d.tenant_name, d.room_id,
        d.room_number, d.lease_start_date, d.lease_end_date, d.operator_id,
        d.booking_type, d.tenant_nationality, d.tenant_email, d.phone,
        d.building_id, "ACTIVE", d.deposit_amount, "CURRENT"⟩] :=
  ⟨rfl, rfl, rfl⟩

/-- C9. Creating a Building whose `building_id` already exists, or an
Operator whose `email` already exists, yields a Conflict and leaves the
state exactly as it was: the duplicate check runs before any write. -/
theorem c9_duplicate_create_conflict (db : DB) (d : BuildingRec)
    (o : OperatorCreate)
    (hb : ∃ b ∈ db.buildings, b.building_id = d.building_id)
    (ho : ∃ p ∈ db.operators, p.email = o.email) :
    create_building d db = (db, .error .conflict) ∧
    create_operator o db = (db, .error .conflict) := by
  constructor
  · unfold create_building
    cases hfind : db.buildings.find? (fun b => b.building_id == d.building_id) with
    | some b => rfl
    | none =>
      rw [List.find?_eq_none] at hfind
      obtain ⟨b, hmem, hb⟩ := hb
      exact absurd (by simp [hb] : (b.building_id == d.building_id) = true)
        (by simpa using hfind b hmem)
  · unfold create_operator
    cases hfind : db.operators.find? (fun p => p.email == o.email) with
    | some p => rfl
    | none =>
      rw [List.find?_eq_none] at hfind
      obtain ⟨p, hmem, hp⟩ := ho
      exact absurd (by simp [hp] : (p.email == o.email) = true)
        (by simpa using hfind p hmem)

/-- Witness for C9 at a one-building, one-operator store. -/
theorem c9_witness :
    create_building bMarket
        ⟨[⟨1, "John Manager", "john.manager@homewiz.com", none, none, true,
            "BUILDING_MANAGER"⟩], [bMarket], [], [], []⟩ =
      (⟨[⟨1, "John Manager", "john.manager@homewiz.com", none, none, true,
            "BUILDING_MANAGER"⟩], [bMarket], [], [], []⟩, .error .conflict) ∧
    create_operator ⟨"Jon", "john.manager@homewiz.com", none, none,
        "LEASING_AGENT", true⟩
        ⟨[⟨1, "John Manager", "john.manager@homewiz.com", none, none, true,
            "BUILDING_MANAGER"⟩], [bMarket], [], [], []⟩ =
      (⟨[⟨1, "John Manager", "john.manager@homewiz.com", none, none, true,
            "BUILDING_MANAGER"⟩], [bMarket], [], [], []⟩, .error .conflict) :=
  c9_duplicate_create_conflict _ _ _ ⟨bMarket, by simp⟩
    ⟨⟨1, "John Manager", "john.manager@homewiz.com", none, none, true,
      "BUILDING_MANAGER"⟩, by simp⟩

/-- C5. Looking up a Building, Room, Operator, or Tenant by a business key
matched by no stored record yields NotFound (never a crash, never a
default object). The Tenant case is settled against the spec-modelled
`get_tenant` (see its docstring). -/
theorem c5_unknown_key_not_found (db : DB) (bid rid tid : String) (oid : Nat)
    (hb : ∀ b ∈ db.buildings, b.building_id ≠ bid)
    (hr : ∀ r ∈ db.rooms, r.room_id ≠ rid)
    (ho : ∀ o ∈ db.operators, o.operator_id ≠ oid)
    (ht : ∀ t ∈ db.tenants, t.tenant_id ≠ tid) :
    get_building bid db = .error .notFound ∧
    get_room rid db = .error .notFound ∧
    get_operator oid db = .error .notFound ∧
    get_tenant tid db = .error .notFound := by
  refine ⟨?_, ?_, ?_, ?_⟩
  · unfold get_building
    rw [show db.buildings.find? (fun b => b.building_id == bid) = none by
      rw [List.find?_eq_none]; intro b hmem; simpa using hb b hmem]
  · unfold get_room
    rw [show db.rooms.find? (fun r => r.room_id == rid) = none by
      rw [List.find?_eq_none]; intro r hmem; simpa using hr r hmem]
  · unfold get_operator
    rw [show db.operators.find? (fun o => o.operator_id == oid) = none by
      rw [List.find?_eq_none]; intro o hmem; simpa using ho o hmem]
  · unfold get_tenant
    rw [show db.tenants.find? (fun t => t.tenant_id == tid) = none by
      rw [List.find?_eq_none]; intro t hmem; simpa using ht t hmem]

/-- Witness for C5 at a store holding one building and nothing else. -/
theorem c5_witness :
    get_building "BLD_NOPE" ⟨[], [bMarket], [], [], []⟩ = .error .notFound ∧
    get_room "R_NOPE" ⟨[], [bMarket], [], [], []⟩ = .error .notFound ∧
    get_operator 42 ⟨[], [bMarket], [], [], []⟩ = .error .notFound ∧
    get_tenant "TNT_NOPE" ⟨[], [bMarket], [], [], []⟩ = .error .notFound :=
  c5_unknown_key_not_found _ _ _ _ _
    (fun b hmem => by simp at hmem; subst hmem; decide)
    (by simp) (by simp) (by simp)

/-- C3. `create_lead` is idempotent by no-op on email: when a lead with the
requested email exists, the call returns that (first-matching) lead's id and
the state — hence every record and the lead count — is unchanged; and,
unconditionally, a second sequential call with the same email returns the
same lead id as the first and leaves the count where the first call put
it. -/
theorem c3_create_lead_idempotent (db : DB) (d : LeadCreate) :
    ((∃ l ∈ db.leads, l.email = d.email) →
      (create_lead d db).1 = db ∧
      ∃ l ∈ db.leads, l.email = d.email ∧
        (create_lead d db).2.lead_id = l.lead_id) ∧
    (create_lead d (create_lead d db).1).2.lead_id =
      (create_lead d db).2.lead_id ∧
    (create_lead d (create_lead d db).1).1.leads.length =
      (create_lead d db).1.leads.length := by
  cases hfind : db.leads.find? (fun l => l.email == d.email) with
  | some l =>
    have hstate : create_lead d db = (db, ⟨true, "Lead already exists", l.lead_id⟩) := by
      unfold create_lead
      rw [hfind]
    have hs : (create_lead d db).1 = db := by rw [hstate]
    have hr : (create_lead d db).2.lead_id = l.lead_id := by rw [hstate]
    refine ⟨fun _ => ⟨hs, l, List.mem_of_find?_eq_some hfind,
      by simpa using List.find?_some hfind, hr⟩, ?_, ?_⟩
    · rw [hs]
    · rw [hs]
      rw [hs]
  | none =>
    have hfalse : ∀ l ∈ db.leads, l.email ≠ d.email := by
      rw [List.find?_eq_none] at hfind
      intro l hmem
      simpa using hfind l hmem
    have hstate : (create_lead d db).1 =
        { db with leads := db.leads ++
            [⟨mkLeadId (db.leads.length + 1), d.email, d.status, 0,
              d.rooms_interested, none, none, none, none, d.visa_status⟩] } := by
      unfold create_lead
      rw [hfind]
    have hresp : (create_lead d db).2.lead_id = mkLeadId (db.leads.length + 1) := by
      unfold create_lead
      rw [hfind]
    refine ⟨fun hex => ?_, ?_, ?_⟩
    · obtain ⟨l, hmem, hl⟩ := hex
      exact absurd hl (hfalse l hmem)
    · rw [hstate]
      have hfind2 : ((db.leads ++
          ([⟨mkLeadId (db.leads.length + 1), d.email, d.status, 0,
            d.rooms_interested, none, none, none, none, d.visa_status⟩] :
              List LeadRec)).find?
              (fun l => l.email == d.email)) =
          some ⟨mkLeadId (db.leads.length + 1), d.email, d.status, 0,
            d.rooms_interested, none, none, none, none, d.visa_status⟩ := by
        rw [List.find?_append, hfind]
        simp
      unfold create_lead
      rw [hfind2]
      simpa using hresp.symm
    · rw [hstate]
      have hfind2 : ((db.leads ++
          ([⟨mkLeadId (db.leads.length + 1), d.email, d.status, 0,
            d.rooms_interested, none, none, none, none, d.visa_status⟩] :
              List LeadRec)).find?
              (fun l => l.email == d.email)) =
          some ⟨mkLeadId (db.leads.length + 1), d.email, d.status, 0,
            d.rooms_interested, none, none, none, none, d.visa_status⟩ := by
        rw [List.find?_append, hfind]
        simp
      conv_lhs => unfold create_lead
      rw [hfind2]

/-- Witness for C3 at a one-lead store whose lead carries the requested
email. -/
theorem c3_witness :
    (create_lead ⟨"sarah.smith@email.com", "EXPLORING", none, none⟩
        ⟨[], [], [], [],
          [⟨"LEAD_001", "sarah.smith@email.com", "EXPLORING", 2, none, none,
            none, none, none, some "US-CITIZEN"⟩]⟩).1 =
      ⟨[], [], [], [],
        [⟨"LEAD_001", "sarah.smith@email.com", "EXPLORING", 2, none, none,
          none, none, none, some "US-CITIZEN"⟩]⟩ ∧
    (create_lead ⟨"sarah.smith@email.com", "EXPLORING", none, none⟩
        ⟨[], [], [], [],
          [⟨"LEAD_001", "sarah.smith@email.com", "EXPLORING", 2, none, none,
            none, none, none, some "US-CITIZEN"⟩]⟩).2.lead_id = "LEAD_001" := by
  have h := c3_create_lead_idempotent
    ⟨[], [], [], [],
      [⟨"LEAD_001", "sarah.smith@email.com", "EXPLORING", 2, none, none,
        none, none, none, some "US-CITIZEN"⟩]⟩
    ⟨"sarah.smith@email.com", "EXPLORING", none, none⟩
  obtain ⟨h1, -, -⟩ := h
  obtain ⟨hstate, l, hmem, -, hid⟩ := h1 (by exact
    ⟨⟨"LEAD_001", "sarah.smith@email.com", "EXPLORING", 2, none, none,
      none, none, none, some "US-CITIZEN"⟩, by simp, rfl⟩)
  refine ⟨hstate, ?_⟩
  simp at hmem
  rw [hid, hmem]

/-- C6. Under sequential execution, `create_lead` on a fresh email allocates
`LEAD_{count+1}` and persists the record with the default status
`EXPLORING`; two successive creations with distinct fresh emails receive the
consecutive ids `LEAD_{count+1}` and `LEAD_{count+2}` — strictly increasing
with no gap. -/
theorem c6_sequential_lead_ids (db : DB) (e1 e2 : String) (hne : e1 ≠ e2)
    (h1 : ∀ l ∈ db.leads, l.email ≠ e1)
    (h2 : ∀ l ∈ db.leads, l.email ≠ e2) :
    (create_lead ⟨e1, "EXPLORING", none, none⟩ db).2.lead_id =
      mkLeadId (db.leads.length + 1) ∧
    (create_lead ⟨e1, "EXPLORING", none, none⟩ db).1.leads =
      db.leads ++ [⟨mkLeadId (db.leads.length + 1), e1, "EXPLORING", 0,
        none, none, none, none, none, none⟩] ∧
    (create_lead ⟨e2, "EXPLORING", none, none⟩
        (create_lead ⟨e1, "EXPLORING", none, none⟩ db).1).2.lead_id =
      mkLeadId (db.leads.length + 2) ∧
    (create_lead ⟨e2, "EXPLORING", none, none⟩
        (create_lead ⟨e1, "EXPLORING", none, none⟩ db).1).1.leads.length =
      db.leads.length + 2 := by
  have hfind1 : db.leads.find? (fun l => l.email == e1) = none := by
    rw [List.find?_eq_none]
    intro l hmem
    simpa using h1 l hmem
  have hstep1 : create_lead ⟨e1, "EXPLORING", none, none⟩ db =
      ({ db with leads := db.leads ++
          [⟨mkLeadId (db.leads.length + 1), e1, "EXPLORING", 0,
            none, none, none, none, none, none⟩] },
        ⟨true, "Lead created successfully", mkLeadId (db.leads.length + 1)⟩) := by
    unfold create_lead
    rw [hfind1]
  have hfind2 : ((db.leads ++
      ([⟨mkLeadId (db.leads.length + 1), e1, "EXPLORING", 0,
        none, none, none, none, none, none⟩] : List LeadRec)).find?
          (fun l => l.email == e2)) = none := by
    rw [List.find?_append]
    rw [show db.leads.find? (fun l => l.email == e2) = none by
      rw [List.find?_eq_none]; intro l hmem; simpa using h2 l hmem]
    simpa using hne
  refine ⟨by rw [hstep1], by rw [hstep1], ?_, ?_⟩
  · rw [hstep1]
    conv_lhs => unfold create_lead
    rw [hfind2]
    simp
  · rw [hstep1]
    conv_lhs => unfold create_lead
    rw [hfind2]
    simp

/-- Witness for C6: two fresh emails against the empty store receive
`LEAD_001` and `LEAD_002`. -/
theorem c6_witness :
    (create_lead ⟨"a@x.com", "EXPLORING", none, none⟩ emptyDB).2.lead_id =
      mkLeadId 1 ∧
    (create_lead ⟨"b@x.com", "EXPLORING", none, none⟩
        (create_lead ⟨"a@x.com", "EXPLORING", none, none⟩ emptyDB).1).2.lead_id =
      mkLeadId 2 := by
  have h := c6_sequential_lead_ids emptyDB "a@x.com" "b@x.com" (by decide)
    (by simp [emptyDB]) (by simp [emptyDB])
  exact ⟨h.1, h.2.2.1⟩

/-- Every room generated by `populate_rooms` carries the rent
`base_rent * premium * floor_premium(floor_number)`. -/
theorem mem_populateRoomsB_rent {table : List (String × ℚ × ℚ)}
    {b : BuildingRec} {base premium : ℚ} {rooms : List RoomRec} {r : RoomRec}
    (hlook : featureLookup table b.area = some (base, premium))
    (hok : populateRoomsB table b = .ok rooms) (hr : r ∈ rooms) :
    r.private_room_rent = base * premium * floorPremium r.floor_number := by
  unfold populateRoomsB at hok
  rw [hlook] at hok
  by_cases hz : b.floors = 0
  · simp [hz] at hok
  · simp [hz] at hok
    rw [← hok] at hr
    rw [List.mem_flatMap] at hr
    obtain ⟨floor, -, hr⟩ := hr
    rw [List.mem_map] at hr
    obtain ⟨num, -, hr⟩ := hr
    rw [← hr]
    rfl

/-- C2. Every room generated for a building whose area maps to
`(base_rent, area_premium)` in the pricing table has rent exactly
`base_rent * area_premium * (1 + (floor - 1) * 0.05)`. -/
theorem c2_rent_formula (table : List (String × ℚ × ℚ)) (b : BuildingRec)
    (base premium : ℚ) (rooms : List RoomRec) (r : RoomRec)
    (hlook : featureLookup table b.area = some (base, premium))
    (hok : populateRoomsB table b = .ok rooms) (hr : r ∈ rooms) :
    r.private_room_rent =
      base * premium * (1 + ((r.floor_number : ℚ) - 1) * 0.05) :=
  mem_populateRoomsB_rent hlook hok hr

/-- Witness for C2: the floor-1 first room of `BLD_MARKET` has rent
`2200 * 1.3 * (1 + 0 * 0.05)`. -/
theorem c2_witness :
    (mkRoom "BLD_MARKET" 2200 1.3 1 1).private_room_rent =
      2200 * 1.3 *
        (1 + (((mkRoom "BLD_MARKET" 2200 1.3 1 1).floor_number : ℚ) - 1) * 0.05) := by
  apply c2_rent_formula roomFeatures bMarket 2200 1.3 _ _ rfl rfl
  rw [List.mem_flatMap]
  refine ⟨1, by simp [bMarket], ?_⟩
  rw [List.mem_map]
  exact ⟨1, by simp [bMarket], rfl⟩

theorem floorPremium_le {f1 f2 : Nat} (h : f1 ≤ f2) :
    floorPremium f1 ≤ floorPremium f2 := by
  unfold floorPremium
  have : (f1 : ℚ) ≤ (f2 : ℚ) := by exact_mod_cast h
  nlinarith

theorem floorPremium_lt {f1 f2 : Nat} (h : f1 < f2) :
    floorPremium f1 < floorPremium f2 := by
  unfold floorPremium
  have : (f1 : ℚ) < (f2 : ℚ) := by exact_mod_cast h
  nlinarith

/-- C8. For a fixed building and pricing entry with positive base rent and
positive area premium, generated rent is non-decreasing in floor number
(indeed strictly increasing), and each floor step adds exactly
`0.05 * base * premium` — five per cent of the ground-floor product — to
the rent. -/
theorem c8_rent_monotone (table : List (String × ℚ × ℚ)) (b : BuildingRec)
    (base premium : ℚ) (rooms : List RoomRec) (r1 r2 : RoomRec)
    (hlook : featureLookup table b.area = some (base, premium))
    (hok : populateRoomsB table b = .ok rooms)
    (hbase : 0 < base) (hprem : 0 < premium)
    (h1 : r1 ∈ rooms) (h2 : r2 ∈ rooms)
    (hfl : r1.floor_number ≤ r2.floor_number) :
    r1.private_room_rent ≤ r2.private_room_rent ∧
    (r1.floor_number < r2.floor_number →
      r1.private_room_rent < r2.private_room_rent) ∧
    (∀ f : Nat, base * premium * floorPremium (f + 1) =
      base * premium * floorPremium f + base * premium * 0.05) := by
  have e1 := mem_populateRoomsB_rent hlook hok h1
  have e2 := mem_populateRoomsB_rent hlook hok h2
  have hpos : 0 < base * premium := mul_pos hbase hprem
  refine ⟨?_, ?_, ?_⟩
  · rw [e1, e2]
    exact mul_le_mul_of_nonneg_left (floorPremium_le hfl) (le_of_lt hpos)
  · intro hlt
    rw [e1, e2]
    exact (mul_lt_mul_left hpos).mpr (floorPremium_lt hlt)
  · intro f
    unfold floorPremium
    push_cast
    ring

/-- Witness for C8: within `BLD_MARKET`, the floor-2 room is strictly
pricier than the floor-1 room, and one floor step adds `2200 * 1.3 * 0.05`. -/
theorem c8_witness :
    (mkRoom "BLD_MARKET" 2200 1.3 1 1).private_room_rent ≤
      (mkRoom "BLD_MARKET" 2200 1.3 2 1).private_room_rent ∧
    (mkRoom "BLD_MARKET" 2200 1.3 1 1).private_room_rent <
      (mkRoom "BLD_MARKET" 2200 1.3 2 1).private_room_rent ∧
    2200 * 1.3 * floorPremium 2 = 2200 * 1.3 * floorPremium 1 +
      2200 * 1.3 * 0.05 := by
  have mem1 : mkRoom "BLD_MARKET" 2200 1.3 1 1 ∈
      (List.range' 1 bMarket.floors).flatMap fun floor =>
        (List.range' 1 (bMarket.total_rooms / bMarket.floors)).map fun num =>
          mkRoom bMarket.building_id 2200 1.3 floor num := by
    rw [List.mem_flatMap]
    refine ⟨1, by simp [bMarket], ?_⟩
    rw [List.mem_map]
    exact ⟨1, by simp [bMarket], rfl⟩
  have mem2 : mkRoom "BLD_MARKET" 2200 1.3 2 1 ∈
      (List.range' 1 bMarket.floors).flatMap fun floor =>
        (List.range' 1 (bMarket.total_rooms / bMarket.floors)).map fun num =>
          mkRoom bMarket.building_id 2200 1.3 floor num := by
    rw [List.mem_flatMap]
    refine ⟨2, by simp [bMarket], ?_⟩
    rw [List.mem_map]
    exact ⟨1, by simp [bMarket], rfl⟩
  have h := c8_rent_monotone roomFeatures bMarket 2200 1.3 _
    (mkRoom "BLD_MARKET" 2200 1.3 1 1) (mkRoom "BLD_MARKET" 2200 1.3 2 1)
    rfl rfl (by norm_num) (by norm_num) mem1 mem2 (by norm_num [mkRoom])
  exact ⟨h.1, h.2.1 (by norm_num [mkRoom]), h.2.2 1⟩

/-- C10. In every state reachable through the public interface, every
stored Room has status `"AVAILABLE"`: room generation creates rooms only
with that status, the room endpoints are read-only, and none of the create
endpoints writes any Room field — no room ever becomes `"OCCUPIED"`. -/
theorem c10_rooms_always_available (db : DB) (h : Reachable db) :
    ∀ r ∈ db.rooms, r.status = "AVAILABLE" := by
  induction h with
  | init => intro r hr; simp [emptyDB] at hr
  | step_operator d db' hr ih =>
    rw [create_operator_rooms]
    exact ih
  | step_building d db' hr ih =>
    rw [create_building_rooms]
    exact ih
  | step_lead d db' hr ih =>
    rw [create_lead_rooms]
    exact ih
  | step_tenant d db' hr ih =>
    rw [create_tenant_rooms]
    exact ih
  | step_seed_rooms table b db' rooms hr hok ih =>
    intro r hmem
    rcases List.mem_append.mp hmem with hm | hm
    · exact ih r hm
    · exact populateRoomsB_status hok r hm

/-- The concrete room list generated for `BLD_MARKET`. -/
def marketRooms : List RoomRec :=
  (populateRoomsB roomFeatures bMarket).toOption.getD []

/-- Witness for C10: after seeding `BLD_MARKET`'s rooms into the empty
store, every stored room reports status `"AVAILABLE"`. -/
theorem c10_witness :
    marketRooms.all (fun r => r.status == "AVAILABLE") = true := by
  have hok : populateRoomsB roomFeatures bMarket = .ok marketRooms := rfl
  have h := c10_rooms_always_available _
    (Reachable.step_seed_rooms roomFeatures bMarket emptyDB marketRooms
      Reachable.init hok)
  rw [List.all_eq_true]
  intro r hmem
  have hr := h r (by simpa [emptyDB] using hmem)
  simp [hr]

/-- A building whose `floors` column is `0`, in a priced area. -/
def bZero : BuildingRec :=
  ⟨"BLD_ZERO", "Zero Floors", none, none, none, "Downtown", none, none,
    none, 0, 10, 0, true, true⟩

/-- Counterexample to C4 as stated: on a zero-floor building, room
generation stops with the `ZeroDivisionError` of
`building.total_rooms // floors` — not with a `ConfigurationError`, which
no code path in the repository ever raises (no such class exists in the
source). -/
theorem c4_counterexample :
    populateRoomsB roomFeatures bZero = .error .zeroDivisionError ∧
    populateRoomsB roomFeatures bZero ≠ .error .configurationError := by
  constructor
  · rfl
  · intro h
    rw [show populateRoomsB roomFeatures bZero = .error .zeroDivisionError
      from rfl] at h
    simp at h

/-- C4 (amended): room generation on a building with `floors = 0` whose
area is in the pricing table fails — with the unhandled division-by-zero
error, not a `ConfigurationError` — and in particular does not silently
produce an empty room list. -/
theorem c4_zero_floors_fails (table : List (String × ℚ × ℚ))
    (b : BuildingRec) (p : ℚ × ℚ)
    (hlook : featureLookup table b.area = some p) (hz : b.floors = 0) :
    populateRoomsB table b = .error .zeroDivisionError ∧
    ∀ rooms, populateRoomsB table b ≠ .ok rooms := by
  obtain ⟨base, premium⟩ := p
  have herr : populateRoomsB table b = .error .zeroDivisionError := by
    unfold populateRoomsB
    rw [hlook]
    simp [hz]
  refine ⟨herr, fun rooms hok => ?_⟩
  rw [herr] at hok
  exact Except.noConfusion hok

/-- Witness for C4 at the concrete zero-floor building. -/
theorem c4_witness :
    populateRoomsB roomFeatures bZero = .error .zeroDivisionError ∧
    populateRoomsB roomFeatures bZero ≠ .ok [] :=
  have h := c4_zero_floors_fails roomFeatures bZero (2200, 1.3) rfl rfl
  ⟨h.1, h.2 []⟩

/-- A building for which the generated room ids collide: with `floors = 11`
and `total_rooms = 1111`, rooms-per-floor is `101`, and floor 1 / index 101
(`"1" ++ "101"`) clashes with floor 11 / index 1 (`"11" ++ "01"`). -/
def bCollide : BuildingRec :=
  ⟨"B", "Collider", none, none, none, "Downtown", none, none, none,
    11, 1111, 0, true, true⟩

theorem natDigits_one_eval : natDigits 1 = ['1'] := by
  rw [natDigits_small 1 (by norm_num)]

theorem natDigits_eleven_eval : natDigits 11 = ['1', '1'] := by
  rw [natDigits_two_digit (by norm_num) (by norm_num)]

theorem natDigits_hundred_one_eval : natDigits 101 = ['1', '0', '1'] := by
  rw [natDigits_large 101 (by norm_num)]
  norm_num
  rw [natDigits_two_digit (by norm_num) (by norm_num)]
  decide

/-- The room-number collision itself: floor 1, index 101 and floor 11,
index 1 produce the same room id. -/
theorem roomId_collision : roomId "B" 1 101 = roomId "B" 11 1 := by
  apply String.ext
  rw [roomId_data, roomId_data, natDigits_one_eval, natDigits_eleven_eval,
    natDigits_hundred_one_eval]
  decide

/-- Counterexample to C1 as stated: for `floors = 11`,
`total_rooms = 1111` (rooms-per-floor `101`, no longer two-digit), the
generated room ids of a single building are NOT pairwise distinct. -/
theorem c1_counterexample : ¬ (generatedIds roomFeatures bCollide).Nodup := by
  intro h
  rw [generatedIds_eq
    (show featureLookup roomFeatures bCollide.area = some (2200, 1.3)
      from rfl) (by norm_num [bCollide])] at h
  rw [List.nodup_flatMap] at h
  have hsymm : Symmetric (Function.onFun List.Disjoint
      (fun floor => (List.range' 1
          (bCollide.total_rooms / bCollide.floors)).map
        fun num => roomId bCollide.building_id floor num)) :=
    fun x y hd a ha hb => hd hb ha
  have hdisj := List.Pairwise.forall hsymm h.2
    (show (1 : Nat) ∈ List.range' 1 bCollide.floors by
      simp [bCollide])
    (show (11 : Nat) ∈ List.range' 1 bCollide.floors by
      simp [bCollide])
    (by norm_num)
  apply hdisj (a := roomId "B" 1 101)
  · rw [List.mem_map]
    refine ⟨101, ?_, rfl⟩
    simp [bCollide]
  · rw [roomId_collision, List.mem_map]
    refine ⟨1, ?_, rfl⟩
    simp [bCollide]

/-- C1 (amended): for every building with `floors ≥ 1` and a priced area,
room generation produces exactly `floors * (total_rooms // floors)` rooms
(the remainder is dropped); provided the per-floor room count stays
two-digit (`total_rooms // floors ≤ 99`), the ids — each of the form
`{building_id}_R{floor}{zero-padded index}` — are pairwise distinct within
the building, and they never collide with the ids generated for any
building with a different building id. -/
theorem c1_room_generation (table : List (String × ℚ × ℚ))
    (b b' : BuildingRec) (base premium : ℚ)
    (hlook : featureLookup table b.area = some (base, premium))
    (hfl : 1 ≤ b.floors) (hq : b.total_rooms / b.floors ≤ 99)
    (hbid : b.building_id ≠ b'.building_id) :
    (generatedIds table b).length = b.floors * (b.total_rooms / b.floors) ∧
    (generatedIds table b).Nodup ∧
    (∀ i ∈ generatedIds table b, ∃ floor num, 1 ≤ floor ∧
      floor ≤ b.floors ∧ 1 ≤ num ∧ num ≤ b.total_rooms / b.floors ∧
      i = roomId b.building_id floor num) ∧
    (generatedIds table b).Disjoint (generatedIds table b') :=
  ⟨generatedIds_length hlook (by omega),
   generatedIds_nodup hlook (by omega) hq,
   fun _ hi => generatedIds_mem hlook (by omega) hi,
   generatedIds_disjoint hbid⟩

/-- Witness for C1 at `BLD_MARKET` (8 floors, 20 rooms): exactly 16 ids,
pairwise distinct, and disjoint from `BLD_SOMA`'s ids. -/
theorem c1_witness :
    (generatedIds roomFeatures bMarket).length = 16 ∧
    (generatedIds roomFeatures bMarket).Nodup ∧
    (generatedIds roomFeatures bMarket).Disjoint
      (generatedIds roomFeatures bSoma) := by
  have h := c1_room_generation roomFeatures bMarket bSoma 2200 1.3 rfl
    (by norm_num [bMarket]) (by norm_num [bMarket]) (by decide)
  refine ⟨?_, h.2.1, h.2.2.2⟩
  rw [h.1]
  norm_num [bMarket]

end HomeWiz
